import Mathlib

/-!
Shallow embedding of the service in `demo/app.py`: environment-variable
parsing, the two HTTP endpoints, and the periodic poller pool.
Python strings are modelled as Lean `String` (with helpers on `List Char`),
machine integers as `Int`, and the fallible startup parse as `Option`.
-/

set_option autoImplicit false

namespace Penny

/-- The characters removed by Python `str.strip()` with no argument
(ASCII whitespace; CPython also strips a few Unicode space characters,
which nothing in this repository uses). -/
def isPySpace (c : Char) : Bool :=
  c = ' ' || c = '\t' || c = '\n' || c = '\r' || c = '\x0b' || c = '\x0c'

/-- Python `str.strip()` on the character list. -/
def pyStrip (s : List Char) : List Char :=
  ((s.dropWhile isPySpace).reverse.dropWhile isPySpace).reverse

/-- Value of a string of ASCII decimal digits. -/
def digitsToNat (ds : List Char) : Nat :=
  ds.foldl (fun n c => 10 * n + (c.toNat - 48)) 0

/-- Models CPython `int(s)` on a decimal string: optional surrounding
whitespace, an optional single sign, then one or more ASCII digits;
`none` models the `ValueError` raised on anything else. (CPython also
accepts Unicode digits and underscore digit grouping; no behavior of this
repository depends on those.) -/
def pythonInt? (s : String) : Option Int :=
  match pyStrip s.data with
  | '-' :: ds =>
    if !ds.isEmpty && ds.all Char.isDigit then some (-(digitsToNat ds : Int)) else none
  | '+' :: ds =>
    if !ds.isEmpty && ds.all Char.isDigit then some (digitsToNat ds : Int) else none
  | ds =>
    if !ds.isEmpty && ds.all Char.isDigit then some (digitsToNat ds : Int) else none

/-- Python `s.split(sep)` for a one-character separator, on the character
list: always at least one field, adjacent separators give empty fields. -/
def pySplitAux (sep : Char) : List Char → List (List Char)
  | [] => [[]]
  | c :: cs =>
    match pySplitAux sep cs with
    | [] => [[]]
    | w :: ws => if c = sep then [] :: w :: ws else (c :: w) :: ws

/-- Python `s.split(sep)` for a one-character separator. -/
def pySplit (sep : Char) (s : String) : List String :=
  (pySplitAux sep s.data).map fun cs => ⟨cs⟩

/-- Joining fields back with the separator (used to state that splitting
preserves every field and their order). -/
def joinWith (sep : Char) : List (List Char) → List Char
  | [] => []
  | [w] => w
  | w :: ws => w ++ sep :: joinWith sep ws

/-- `SERVICE_NAME = os.getenv('SERVICE_NAME', 'unknown')`; the argument is
the raw environment value, `none` when the variable is unset. -/
def SERVICE_NAME (env : Option String) : String :=
  env.getD "unknown"

/-- `TARGETS = os.getenv('TARGETS', '').split(',') if os.getenv('TARGETS') else []`.
By Python truthiness the `else []` branch is taken both when the variable
is unset and when it is set to the empty string. -/
def TARGETS (env : Option String) : List String :=
  match env with
  | none => []
  | some s => if s = "" then [] else pySplit ',' s

/-- `list(map(int, fields))` where `int` raises on a malformed field:
`none` models the uncaught exception, which is fatal at startup. -/
def mapInt : List String → Option (List Int)
  | [] => some []
  | s :: ss =>
    match pythonInt? s, mapInt ss with
    | some n, some ns => some (n :: ns)
    | _, _ => none

/-- `INTERVALS = list(map(int, os.getenv('INTERVALS', '60').split(',')))`. -/
def INTERVALS (env : Option String) : Option (List Int) :=
  mapInt (pySplit ',' (env.getD "60"))

/-- The immutable configuration snapshot built from the environment at
process start. -/
structure Configuration where
  serviceName : String
  targets : List String
  intervals : List Int
  deriving DecidableEq

/-- The whole startup parse: `none` when the process fails to start
(malformed interval value). -/
def loadConfig (svc tgts ivls : Option String) : Option Configuration :=
  (INTERVALS ivls).map fun is =>
    { serviceName := SERVICE_NAME svc, targets := TARGETS tgts, intervals := is }

/-- JSON body returned by the `/health` route. -/
structure HealthBody where
  status : String
  service : String
  deriving DecidableEq

/-- `health()`: body and HTTP status of `GET /health`. -/
def health (cfg : Configuration) : HealthBody × Nat :=
  ({ status := "healthy", service := cfg.serviceName }, 200)

/-- JSON body returned by the `/` route. -/
structure IndexBody where
  service : String
  message : String
  targets : List String
  intervals : List Int
  deriving DecidableEq

/-- `index()`: body and HTTP status of `GET /`. -/
def index (cfg : Configuration) : IndexBody × Nat :=
  ({ service := cfg.serviceName,
     message := "Hello from " ++ cfg.serviceName ++ "!",
     targets := cfg.targets,
     intervals := cfg.intervals }, 200)

/-- Outcome of one outbound GET at the transport level: either a completed
HTTP response (any status code) or a raised exception (connection refused,
DNS failure, timeout, ...). -/
inductive TransportResult where
  | success (statusCode : Nat)
  | failure (reason : String)
  deriving DecidableEq

/-- The request issued by one tick of `make_request`. -/
structure HttpRequest where
  url : String
  timeoutSeconds : Nat
  deriving DecidableEq

/-- The log line written by one tick of `make_request`. -/
inductive LogEntry where
  | responseLogged (target : String) (statusCode : Nat)
  | errorLogged (target : String) (reason : String)
  deriving DecidableEq

/-- Outcome of a `time.sleep` call: completed, or ValueError raised. -/
inductive SleepOutcome where
  | slept (seconds : Int)
  | valueError (message : String)
  deriving DecidableEq

/-- Models `time.sleep(seconds)`: completes on a non-negative argument,
recording the seconds slept, and raises ValueError otherwise. In
`make_request` the call sits outside the try/except, so the exception is
uncaught. -/
def timeSleep (seconds : Int) : SleepOutcome :=
  if 0 ≤ seconds then SleepOutcome.slept seconds
  else SleepOutcome.valueError "sleep length must be non-negative"

/-- Observable effect of one iteration of the `while True` body of
`make_request`: the request issued, the log line written, and the outcome
of the closing `time.sleep` call. -/
structure TickEffect where
  request : HttpRequest
  log : LogEntry
  sleep : SleepOutcome
  deriving DecidableEq

/-- A tick is followed by another iff its sleep completed; an uncaught
ValueError from `time.sleep` terminates the thread instead. -/
def TickEffect.continues (e : TickEffect) : Bool :=
  match e.sleep with
  | SleepOutcome.slept _ => true
  | SleepOutcome.valueError _ => false

/-- One iteration of the `while True` body of `make_request`, as a function
of the transport outcome of the GET: the `try` block logs the status code,
the `except` block logs the error, and in both cases the iteration ends
with `time.sleep(interval)` — which itself fails when the interval is
negative. -/
def makeRequestTick (target : String) (interval : Int) (r : TransportResult) : TickEffect :=
  { request := { url := "http://" ++ target, timeoutSeconds := 5 },
    log :=
      match r with
      | .success code => .responseLogged target code
      | .failure e => .errorLogged target e,
    sleep := timeSleep interval }

/-- Whether the `make_request` thread is still running just before tick
`n`: true while every earlier tick completed its sleep. -/
def aliveTo (target : String) (interval : Int)
    (oracle : Nat → TransportResult) : Nat → Bool
  | 0 => true
  | n + 1 => aliveTo target interval oracle n &&
      (makeRequestTick target interval (oracle n)).continues

/-- The loop of `make_request`: tick `n` runs, with its effect, only while
the thread is alive, given an oracle assigning each tick its transport
outcome; the task shares no state with other tasks, so its trace depends
only on its own arguments. -/
def makeRequest (target : String) (interval : Int)
    (oracle : Nat → TransportResult) (n : Nat) : Option TickEffect :=
  if aliveTo target interval oracle n then
    some (makeRequestTick target interval (oracle n))
  else none

/-- An oracle under which every tick fails at the transport level. -/
def constFailure (reason : String) : Nat → TransportResult :=
  fun _ => .failure reason

/-- `INTERVALS[i] if i < len(INTERVALS) else 60`. -/
def resolveInterval (intervals : List Int) (i : Nat) : Int :=
  if h : i < intervals.length then intervals.get ⟨i, h⟩ else 60

/-- The loop of `start_periodic_calls` from loop index `i` on: one
`(target, interval)` task per truthy (non-empty) target. -/
def startPeriodicCallsFrom (intervals : List Int) : Nat → List String → List (String × Int)
  | _, [] => []
  | i, t :: ts =>
    if t = "" then startPeriodicCallsFrom intervals (i + 1) ts
    else (t, resolveInterval intervals i) :: startPeriodicCallsFrom intervals (i + 1) ts

/-- `start_periodic_calls()`: the tasks started, in order. -/
def startPeriodicCalls (targets : List String) (intervals : List Int) : List (String × Int) :=
  startPeriodicCallsFrom intervals 0 targets

theorem pySplitAux_ne_nil (sep : Char) (l : List Char) : pySplitAux sep l ≠ [] := by
  cases l with
  | nil => simp [pySplitAux]
  | cons c cs =>
    simp only [pySplitAux]
    cases pySplitAux sep cs with
    | nil => simp
    | cons w ws => by_cases h : c = sep <;> simp [h]

theorem joinWith_pySplitAux (sep : Char) (l : List Char) :
    joinWith sep (pySplitAux sep l) = l := by
  induction l with
  | nil => rfl
  | cons c cs ih =>
    simp only [pySplitAux]
    cases hr : pySplitAux sep cs with
    | nil => exact absurd hr (pySplitAux_ne_nil sep cs)
    | cons w ws =>
      rw [hr] at ih
      by_cases h : c = sep
      · subst h
        simp only [if_pos rfl, joinWith, List.nil_append]
        rw [ih]
      · simp only [if_neg h]
        cases ws with
        | nil =>
          simp only [joinWith] at ih ⊢
          rw [ih]
        | cons v vs =>
          simp only [joinWith, List.cons_append] at ih ⊢
          rw [ih]

theorem pySplit_data (sep : Char) (s : String) :
    (pySplit sep s).map String.data = pySplitAux sep s.data := by
  rw [pySplit, List.map_map]
  exact List.map_id _

theorem mapInt_none_of_bad (ss : List String) (s : String)
    (hs : s ∈ ss) (hbad : pythonInt? s = none) : mapInt ss = none := by
  induction ss with
  | nil => cases hs
  | cons a as ih =>
    rcases List.mem_cons.mp hs with h | h
    · subst h
      rw [mapInt, hbad]
    · rw [mapInt, ih h]
      cases pythonInt? a <;> rfl

theorem mapInt_get (ss : List String) (ns : List Int) (h : mapInt ss = some ns) :
    ns.length = ss.length ∧
      ∀ (i : Nat) (hi : i < ns.length) (hs : i < ss.length),
        pythonInt? (ss.get ⟨i, hs⟩) = some (ns.get ⟨i, hi⟩) := by
  induction ss generalizing ns with
  | nil =>
    rw [mapInt] at h
    injection h with h
    subst h
    exact ⟨rfl, fun i hi _ => absurd hi (Nat.not_lt_zero i)⟩
  | cons a as ih =>
    rw [mapInt] at h
    cases ha : pythonInt? a with
    | none =>
      rw [ha] at h
      exact Option.noConfusion h
    | some n =>
      rw [ha] at h
      cases has : mapInt as with
      | none =>
        rw [has] at h
        exact Option.noConfusion h
      | some ms =>
        rw [has] at h
        injection h with h
        subst h
        obtain ⟨hlen, hget⟩ := ih ms has
        refine ⟨by simp [hlen], ?_⟩
        intro i hi hs
        cases i with
        | zero => exact ha
        | succ j => exact hget j (Nat.lt_of_succ_lt_succ hi) (Nat.lt_of_succ_lt_succ hs)

theorem startPeriodicCallsFrom_map_fst (intervals : List Int) (ts : List String) :
    ∀ i : Nat, (startPeriodicCallsFrom intervals i ts).map Prod.fst =
      ts.filter (fun t => decide (t ≠ "")) := by
  induction ts with
  | nil => intro i; rfl
  | cons t ts ih =>
    intro i
    by_cases h : t = ""
    · subst h
      simp [startPeriodicCallsFrom, List.filter_cons, ih (i + 1)]
    · simp [startPeriodicCallsFrom, if_neg h, List.filter_cons, ih (i + 1), h]

theorem startPeriodicCallsFrom_mem (intervals : List Int) (ts : List String) :
    ∀ (i k : Nat) (hk : k < ts.length), ts.get ⟨k, hk⟩ ≠ "" →
      (ts.get ⟨k, hk⟩, resolveInterval intervals (i + k)) ∈
        startPeriodicCallsFrom intervals i ts := by
  induction ts with
  | nil => intro i k hk _; exact absurd hk (Nat.not_lt_zero k)
  | cons t ts ih =>
    intro i k hk hne
    cases k with
    | zero =>
      have ht : t ≠ "" := hne
      simp only [startPeriodicCallsFrom, if_neg ht]
      exact List.mem_cons_self _ _
    | succ j =>
      have hj : j < ts.length := Nat.lt_of_succ_lt_succ hk
      have hmem := ih (i + 1) j hj hne
      have harith : i + 1 + j = i + (j + 1) := by omega
      rw [harith] at hmem
      by_cases ht : t = ""
      · simpa [startPeriodicCallsFrom, ht] using hmem
      · simp only [startPeriodicCallsFrom, if_neg ht]
        exact List.mem_cons_of_mem _ hmem

theorem makeRequestTick_continues_of_nonneg (target : String) (interval : Int)
    (r : TransportResult) (hiv : 0 ≤ interval) :
    (makeRequestTick target interval r).continues = true := by
  simp [makeRequestTick, TickEffect.continues, timeSleep, hiv]

theorem aliveTo_of_nonneg (target : String) (interval : Int)
    (oracle : Nat → TransportResult) (hiv : 0 ≤ interval) (n : Nat) :
    aliveTo target interval oracle n = true := by
  induction n with
  | zero => rfl
  | succ m ih =>
    rw [aliveTo, ih, makeRequestTick_continues_of_nonneg target interval (oracle m) hiv]
    rfl

/-- C1: positional pairing policy — the poll task for the target at
position `i` (when that target is non-empty) uses `intervals[i]` when `i`
is a valid index into the intervals list and the literal fallback 60
otherwise; concretely, for targets a, b, c with intervals 5, 10 the tasks
pair a with 5, b with 10 and c with 60. -/
theorem C1_positional_pairing (targets : List String) (intervals : List Int)
    (i : Nat) (hi : i < targets.length) (hne : targets.get ⟨i, hi⟩ ≠ "") :
    (targets.get ⟨i, hi⟩,
        if h : i < intervals.length then intervals.get ⟨i, h⟩ else 60) ∈
      startPeriodicCalls targets intervals := by
  have h := startPeriodicCallsFrom_mem intervals targets 0 i hi hne
  rw [Nat.zero_add] at h
  exact h

/-- Witness for C1 at the concrete scenario of the claim. -/
theorem C1_positional_pairing_witness :
    startPeriodicCalls ["a", "b", "c"] [5, 10] = [("a", 5), ("b", 10), ("c", 60)] ∧
    ("c", (60 : Int)) ∈ startPeriodicCalls ["a", "b", "c"] [5, 10] := by
  refine ⟨by decide, ?_⟩
  have h := C1_positional_pairing ["a", "b", "c"] [5, 10] 2 (by decide) (by decide)
  revert h
  decide

/-- C2: a poll task is created for exactly the non-empty targets, in
order; pairing uses each target's original index in the targets list;
concretely, for targets a, (empty), b with intervals 1, 2, 3 exactly two
tasks are created and b pairs with the interval at index 2. -/
theorem C2_empty_target_skipping :
    (∀ (targets : List String) (intervals : List Int),
        (startPeriodicCalls targets intervals).map Prod.fst =
          targets.filter (fun t => decide (t ≠ ""))) ∧
    (∀ (targets : List String) (intervals : List Int)
        (i : Nat) (hi : i < targets.length), targets.get ⟨i, hi⟩ ≠ "" →
        (targets.get ⟨i, hi⟩, resolveInterval intervals i) ∈
          startPeriodicCalls targets intervals) ∧
    startPeriodicCalls ["a", "", "b"] [1, 2, 3] = [("a", 1), ("b", 3)] := by
  refine ⟨fun ts is => startPeriodicCallsFrom_map_fst is ts 0, fun ts is i hi hne => ?_, by decide⟩
  have h := startPeriodicCallsFrom_mem is ts 0 i hi hne
  rw [Nat.zero_add] at h
  exact h

/-- Witness for C2 at the concrete scenario of the claim. -/
theorem C2_empty_target_skipping_witness :
    ("b", (3 : Int)) ∈ startPeriodicCalls ["a", "", "b"] [1, 2, 3] := by
  have h := C2_empty_target_skipping.2.1 ["a", "", "b"] [1, 2, 3] 2 (by decide) (by decide)
  revert h
  decide

/-- C3 as stated is false: a task whose resolved interval is negative —
accepted at startup per the INTERVALS parse — logs its first transport
failure, then dies in the uncaught `time.sleep` ValueError, so after N = 1
consecutive failures tick 2 is never attempted. -/
theorem C3_counterexample :
    INTERVALS (some "-5") = some [-5] ∧
    startPeriodicCalls ["a"] [-5] = [("a", -5)] ∧
    makeRequest "a" (-5) (constFailure "connection refused") 0 =
      some { request := { url := "http://a", timeoutSeconds := 5 },
             log := LogEntry.errorLogged "a" "connection refused",
             sleep := SleepOutcome.valueError "sleep length must be non-negative" } ∧
    makeRequest "a" (-5) (constFailure "connection refused") 1 = none := by
  decide

/-- C3 (amended): for a poll task whose resolved interval is non-negative,
N consecutive transport-level failures are each caught, logged, and
followed by a completed full-interval sleep, and the task still attempts
tick N+1; a task with a negative resolved interval instead terminates on
its first tick in `time.sleep`, regardless of transport outcomes. The
trace is a function of the task's own oracle alone, so the failures reach
no other task and no endpoint. -/
theorem C3_transport_failure_recovery (target : String) (interval : Int)
    (oracle : Nat → TransportResult) (reason : String) (N : Nat)
    (hiv : 0 ≤ interval)
    (h : ∀ k, k < N → oracle k = TransportResult.failure reason) :
    (∀ k, k < N →
        makeRequest target interval oracle k =
          some { request := { url := "http://" ++ target, timeoutSeconds := 5 },
                 log := LogEntry.errorLogged target reason,
                 sleep := SleepOutcome.slept interval }) ∧
    (makeRequest target interval oracle N).isSome = true := by
  refine ⟨fun k hk => ?_, ?_⟩
  · rw [makeRequest, if_pos (aliveTo_of_nonneg target interval oracle hiv k), h k hk]
    simp [makeRequestTick, timeSleep, hiv]
  · rw [makeRequest, if_pos (aliveTo_of_nonneg target interval oracle hiv N)]
    rfl

/-- Witness for C3 (amended): three consecutive connection failures with
interval 5. -/
theorem C3_transport_failure_recovery_witness :
    makeRequest "hostA:9000" 5 (constFailure "connection refused") 2 =
      some { request := { url := "http://hostA:9000", timeoutSeconds := 5 },
             log := LogEntry.errorLogged "hostA:9000" "connection refused",
             sleep := SleepOutcome.slept 5 } ∧
    (makeRequest "hostA:9000" 5 (constFailure "connection refused") 3).isSome = true := by
  have h := C3_transport_failure_recovery "hostA:9000" 5 (constFailure "connection refused")
    "connection refused" 3 (by decide) (fun k _ => rfl)
  exact ⟨h.1 2 (by decide), h.2⟩

/-- C4 as stated is false on the sleep clause: a tick with a 503 response
and a negative resolved interval — accepted at startup — logs the numeric
status code as a successful poll, but then fails in `time.sleep` instead
of sleeping its full interval. -/
theorem C4_counterexample :
    (makeRequestTick "a" (-5) (TransportResult.success 503)).log =
      LogEntry.responseLogged "a" 503 ∧
    (makeRequestTick "a" (-5) (TransportResult.success 503)).sleep =
      SleepOutcome.valueError "sleep length must be non-negative" := by
  decide

/-- C4 (amended): a completed GET with any status code, 4xx and 5xx
included, takes the success branch — the numeric status code is logged and
the error branch is taken exactly on transport-level failures; when the
resolved interval is non-negative the tick then completes its
full-interval sleep (no retry-sooner), while a negative resolved interval
makes the closing `time.sleep` raise instead. -/
theorem C4_non_2xx_not_error (target : String) (interval : Int) (code : Nat)
    (r : TransportResult) (hiv : 0 ≤ interval) :
    makeRequestTick target interval (TransportResult.success code) =
      { request := { url := "http://" ++ target, timeoutSeconds := 5 },
        log := LogEntry.responseLogged target code,
        sleep := SleepOutcome.slept interval } ∧
    ((∃ reason, (makeRequestTick target interval r).log = LogEntry.errorLogged target reason) ↔
      ∃ reason, r = TransportResult.failure reason) := by
  refine ⟨?_, ?_⟩
  · simp [makeRequestTick, timeSleep, hiv]
  · cases r with
    | success c => simp [makeRequestTick]
    | failure e => simp [makeRequestTick]

/-- Witness for C4 (amended): a 503 response with interval 60. -/
theorem C4_non_2xx_not_error_witness :
    makeRequestTick "hostA:9000" 60 (TransportResult.success 503) =
      { request := { url := "http://hostA:9000", timeoutSeconds := 5 },
        log := LogEntry.responseLogged "hostA:9000" 503,
        sleep := SleepOutcome.slept 60 } ∧
    ((∃ reason, (makeRequestTick "hostA:9000" 60 (TransportResult.success 503)).log =
        LogEntry.errorLogged "hostA:9000" reason) ↔
      ∃ reason, TransportResult.success 503 = TransportResult.failure reason) :=
  C4_non_2xx_not_error "hostA:9000" 60 503 (TransportResult.success 503) (by decide)

/-- C5: INTERVALS defaults to the single element 60 when unset; a set
value is comma-split with each field parsed as an integer; any malformed
field makes the whole parse fail, so the process does not start. -/
theorem C5_intervals_parsing :
    INTERVALS none = some [60] ∧
    INTERVALS (some "5,10") = some [5, 10] ∧
    ∀ s x, x ∈ pySplit ',' s → pythonInt? x = none → INTERVALS (some s) = none := by
  refine ⟨by decide, by decide, fun s x hx hbad => ?_⟩
  exact mapInt_none_of_bad _ x hx hbad

/-- Witness for C5: the malformed field x in 5,x aborts startup. -/
theorem C5_intervals_parsing_witness :
    INTERVALS (some "5,x") = none :=
  C5_intervals_parsing.2.2 "5,x" "x" (by decide) (by decide)

/-- C6: the health route answers 200 with status healthy and the
configured service name, for every configuration; it reads nothing but the
configuration, in particular no poller state. -/
theorem C6_health_endpoint (cfg : Configuration) :
    health cfg = ({ status := "healthy", service := cfg.serviceName }, 200) :=
  rfl

/-- C7: the root route answers 200 and echoes the configured service name,
the hello message, and the targets and intervals lists exactly as parsed,
order preserved; concretely for SERVICE_NAME svcA, TARGETS
host1:9000,host2:9000 and INTERVALS 2. -/
theorem C7_index_endpoint :
    (∀ cfg : Configuration,
        index cfg =
          ({ service := cfg.serviceName,
             message := "Hello from " ++ cfg.serviceName ++ "!",
             targets := cfg.targets,
             intervals := cfg.intervals }, 200)) ∧
    (loadConfig (some "svcA") (some "host1:9000,host2:9000") (some "2")).map index =
      some ({ service := "svcA",
              message := "Hello from svcA!",
              targets := ["host1:9000", "host2:9000"],
              intervals := [2] }, 200) :=
  ⟨fun _ => rfl, by decide⟩

/-- C8: TARGETS unset or set to the empty string yields the empty list;
any other value yields its comma-split fields in order, empty fields
included — joining the parsed fields back with a comma restores the raw
value, so nothing is dropped or reordered. -/
theorem C8_targets_parsing :
    TARGETS none = [] ∧
    TARGETS (some "") = [] ∧
    (∀ s : String, s ≠ "" →
        TARGETS (some s) = pySplit ',' s ∧
        joinWith ',' ((TARGETS (some s)).map String.data) = s.data) ∧
    TARGETS (some "a,,b") = ["a", "", "b"] := by
  refine ⟨rfl, rfl, fun s hs => ?_, by decide⟩
  have ht : TARGETS (some s) = pySplit ',' s := by
    rw [TARGETS, if_neg hs]
  refine ⟨ht, ?_⟩
  rw [ht, pySplit_data, joinWith_pySplitAux]

/-- Witness for C8 on a non-empty value. -/
theorem C8_targets_parsing_witness :
    TARGETS (some "a,b") = pySplit ',' "a,b" ∧
    joinWith ',' ((TARGETS (some "a,b")).map String.data) = "a,b".data :=
  C8_targets_parsing.2.2.1 "a,b" (by decide)

/-- C9 as stated is false: the value 0 for INTERVALS is accepted at
startup, yet its single element is not positive — the code never checks
positivity. -/
theorem C9_counterexample :
    INTERVALS (some "0") = some [0] ∧ ¬ (0 : Int) > 0 :=
  ⟨by decide, by decide⟩

/-- C9 (amended): every element of an accepted intervals list is the
integer parsed from the comma-separated field at the same position; the
code performs no positivity check, so zero and negative intervals are
accepted. -/
theorem C9_intervals_elements (env : Option String) (l : List Int)
    (h : INTERVALS env = some l) :
    l.length = (pySplit ',' (env.getD "60")).length ∧
      ∀ (i : Nat) (hi : i < l.length) (hs : i < (pySplit ',' (env.getD "60")).length),
        pythonInt? ((pySplit ',' (env.getD "60")).get ⟨i, hs⟩) = some (l.get ⟨i, hi⟩) :=
  mapInt_get _ l h

/-- Witness for C9 (amended) at the default configuration. -/
theorem C9_intervals_elements_witness :
    pythonInt? ((pySplit ',' ((none : Option String).getD "60")).get ⟨0, by decide⟩) =
      some (([60] : List Int).get ⟨0, by decide⟩) :=
  (C9_intervals_elements none [60] (by decide)).2 0 (by decide) (by decide)

/-- C10: a successfully parsed intervals list is never empty — splitting
always yields at least one field, and int parsing preserves the count. -/
theorem C10_intervals_nonempty (env : Option String) (l : List Int)
    (h : INTERVALS env = some l) : 1 ≤ l.length := by
  have hlen := (mapInt_get _ l h).1
  have hne := pySplitAux_ne_nil ',' (env.getD "60").data
  have hpos : 0 < (pySplitAux ',' (env.getD "60").data).length := List.length_pos.mpr hne
  have hsplit : (pySplit ',' (env.getD "60")).length =
      (pySplitAux ',' (env.getD "60").data).length := by
    rw [pySplit, List.length_map]
  omega

/-- Witness for C10 at the default configuration. -/
theorem C10_intervals_nonempty_witness :
    1 ≤ ([60] : List Int).length :=
  C10_intervals_nonempty none [60] (by decide)

end Penny
